import Mathlib

/-!
Verification of the FOS survey call-agent conversation state machine.

Shallow embedding of the Python sources:
  backend/app/agent/session.py      (SurveySession and its mutators)
  backend/app/agent/survey_agent.py (ConversationPhase, SurveyAgent methods)
  backend/app/agent/prompts.py      (Urdu prompt constants)

Modelling conventions:
  - mutation is explicit state passing: each Python method that mutates
    `self` becomes a Lean function returning the updated record;
  - a Python exception escaping a method is an `Except.error` carrying the
    state as mutated up to the raise (the database write in _save_response
    and complete_session can raise; reading an attribute of a `None`
    current question raises AttributeError);
  - the `dbOk` flag says whether the synchronous database write succeeds;
  - Python `str.strip()` is `pyStrip` (drop leading and trailing
    whitespace characters); `x or y` on strings is `pyOr` (empty string is
    falsy; the schema default for text_ur is "");
  - `responses` (a Python dict keyed by question id) is an association
    list updated by `dictInsert`, which replaces an existing key in place
    and otherwise appends, so its length is the dict length;
  - timestamps (started_at, completed_at) and the identifier / foreign-key
    fields carry no conversation logic and are omitted from the record.
-/

/-- SessionState enum from session.py. -/
inductive SessionState where
  | CREATED
  | IN_PROGRESS
  | COMPLETED
  | ABANDONED
  | ERROR
deriving DecidableEq, Repr

/-- ConversationPhase enum from survey_agent.py. -/
inductive ConversationPhase where
  | GREETING
  | WAIT_IDENTITY
  | CONFIRMED
  | INTRO
  | ASK_QUESTION
  | WAIT_ANSWER
  | ACKNOWLEDGE
  | CLOSING
  | DONE
deriving DecidableEq, Repr

/-- Question model from database.py (the fields the agent logic reads;
survey_id, order, type and help_text are plumbing never consulted by the
dialogue code). -/
structure Question where
  id : Nat
  text : String
  text_ur : String
  required : Bool
deriving DecidableEq, Repr

/-- SurveySession dataclass from session.py.  employee_name stands for the
employee object, of which the agent only reads the name. -/
structure SurveySession where
  employee_name : String
  questions : List Question
  state : SessionState
  current_question_index : Nat
  responses : List (Nat × String)
  retry_count : Nat
  max_retries : Nat
deriving DecidableEq, Repr

/-- The agent pairs a conversation phase with its session
(SurveyAgent.__init__ stores the session and starts at GREETING). -/
structure AgentState where
  phase : ConversationPhase
  session : SurveySession
deriving DecidableEq, Repr

/-- Python `x or y` for strings: empty string is falsy. -/
def pyOr (x y : String) : String :=
  if x = "" then y else x

/-- Python str.strip(): drop leading and trailing whitespace characters,
written over the character list so that it evaluates by kernel
reduction. -/
def pyStrip (s : String) : String :=
  String.mk
    (((s.data.dropWhile Char.isWhitespace).reverse.dropWhile
        Char.isWhitespace).reverse)

/-- Python dict assignment d[k] = v on an association list: replace the
existing entry for k, else append.  Keeps one entry per key, so list
length equals dict length. -/
def dictInsert (d : List (Nat × String)) (k : Nat) (v : String) :
    List (Nat × String) :=
  if d.any (fun p => p.1 = k) then
    d.map (fun p => if p.1 = k then (k, v) else p)
  else
    d ++ [(k, v)]

/-- SurveySession.current_question: the question at the cursor, or none
when the cursor is past the end (the index is a Nat, so the Python lower
bound 0 <= idx is automatic). -/
def current_question (s : SurveySession) : Option Question :=
  s.questions[s.current_question_index]?

/-- SurveySession.is_complete. -/
def is_complete (s : SurveySession) : Bool :=
  decide (s.current_question_index ≥ s.questions.length) ||
    decide (s.state = SessionState.COMPLETED)

/-- SurveySession.progress_percent, with Python float modelled as ℚ. -/
def progress_percent (s : SurveySession) : ℚ :=
  if s.questions = [] then 0
  else ((s.current_question_index : ℚ) / (s.questions.length : ℚ)) * 100

/-- SurveySession.record_response. -/
def record_response (s : SurveySession) (question_id : Nat) (answer : String) :
    SurveySession :=
  { s with responses := dictInsert s.responses question_id answer,
           retry_count := 0 }

/-- SurveySession.advance_to_next_question. -/
def advance_to_next_question (s : SurveySession) : SurveySession :=
  { s with current_question_index := s.current_question_index + 1,
           state := SessionState.IN_PROGRESS }

/-- SurveySession.increment_retry: increments, and returns false (flipping
the state to ABANDONED) once the count exceeds max_retries. -/
def increment_retry (s : SurveySession) : Bool × SurveySession :=
  let s1 := { s with retry_count := s.retry_count + 1 }
  if s1.retry_count > s1.max_retries then
    (false, { s1 with state := SessionState.ABANDONED })
  else
    (true, s1)

/-- SurveySession.complete. -/
def complete (s : SurveySession) : SurveySession :=
  { s with state := SessionState.COMPLETED }

/-- SurveySession.abandon. -/
def abandon (s : SurveySession) : SurveySession :=
  { s with state := SessionState.ABANDONED }

/-! Prompt constants from prompts.py, with the two .format templates
inlined as string concatenation. -/

/-- prompts.format_greeting (the GREETING template applied to the name). -/
def format_greeting (employee_name : String) : String :=
  "السلام علیکم! میں FOS سروے سینٹر سے بول رہا ہوں۔\nکیا آپ " ++
    employee_name ++ " صاحب سے بات ہو رہی ہے؟"

/-- prompts.format_identity_confirmed. -/
def format_identity_confirmed (employee_name : String) : String :=
  "شکریہ " ++ employee_name ++ " صاحب۔"

/-- prompts.SURVEY_INTRO. -/
def SURVEY_INTRO : String :=
  "آج میں آپ سے کچھ سوالات پوچھنا چاہتا ہوں۔ \nآپ کے جوابات مکمل طور پر رازدارانہ رہیں گے اور یہ ہماری کمپنی کو بہتر بنانے میں مدد کریں گے۔\nآئیے شروع کرتے ہیں۔"

/-- prompts.format_question (the ASK_QUESTION template applied to the
number and text). -/
def format_question (question_number : Nat) (question_text : String) : String :=
  "سوال نمبر " ++ toString question_number ++ ": " ++ question_text

/-- prompts.ACKNOWLEDGE_NEXT. -/
def ACKNOWLEDGE_NEXT : String := "شکریہ، اگلا سوال سنیں۔"

/-- prompts.REPEAT_REQUEST. -/
def REPEAT_REQUEST : String :=
  "براہ کرم دوبارہ بتائیں، مجھے آپ کی بات واضح نہیں سمجھ آئی۔"

/-- prompts.CLOSING. -/
def CLOSING : String :=
  "بہت شکریہ آپ کے وقت کا۔ آپ کے جوابات محفوظ ہو گئے ہیں۔\nاگر کوئی شکایت ہو تو FOS ہیلپ لائن پر کال کریں: 0800-91299\nاللہ حافظ!"

/-- prompts.CALL_LATER. -/
def CALL_LATER : String :=
  "معذرت، ابھی آپ مصروف لگ رہے ہیں۔ ہم بعد میں دوبارہ رابطہ کریں گے۔\nاللہ حافظ!"

/-- prompts.TECHNICAL_ERROR. -/
def TECHNICAL_ERROR : String :=
  "معذرت، کچھ تکنیکی مسئلہ ہو گیا۔ ہم جلد دوبارہ رابطہ کریں گے۔\nاللہ حافظ!"

/-- prompts.SKIPPING. -/
def SKIPPING : String := "ٹھیک ہے، آگے بڑھتے ہیں۔"

/-! The three SurveyAgent operations.  A result `Except.error a` models a
Python exception escaping the method with the agent state as mutated up to
the raise; `Except.ok` carries the normal return value. -/

/-- SurveyAgent.get_next_utterance.  dbOk says whether
db.complete_session (called in the CLOSING branch) succeeds. -/
def get_next_utterance (a : AgentState) (dbOk : Bool) :
    Except AgentState (AgentState × String) :=
  match a.phase with
  | ConversationPhase.GREETING =>
      Except.ok ({ a with phase := ConversationPhase.WAIT_IDENTITY },
        format_greeting a.session.employee_name)
  | ConversationPhase.CONFIRMED =>
      Except.ok ({ a with phase := ConversationPhase.INTRO },
        format_identity_confirmed a.session.employee_name)
  | ConversationPhase.INTRO =>
      Except.ok ({ a with phase := ConversationPhase.ASK_QUESTION },
        SURVEY_INTRO)
  | ConversationPhase.ASK_QUESTION =>
      match current_question a.session with
      | some question =>
          Except.ok ({ a with phase := ConversationPhase.WAIT_ANSWER },
            format_question (a.session.current_question_index + 1)
              (pyOr question.text_ur question.text))
      | none =>
          Except.ok ({ a with phase := ConversationPhase.CLOSING }, CLOSING)
  | ConversationPhase.ACKNOWLEDGE =>
      if a.session.current_question_index ≥ a.session.questions.length then
        Except.ok ({ a with phase := ConversationPhase.CLOSING }, CLOSING)
      else
        let a1 := { a with phase := ConversationPhase.ASK_QUESTION }
        match current_question a1.session with
        | some question =>
            Except.ok (a1, ACKNOWLEDGE_NEXT ++ "\n\n" ++
              format_question (a1.session.current_question_index + 1)
                (pyOr question.text_ur question.text))
        | none => Except.error a1
  | ConversationPhase.CLOSING =>
      let s1 := complete a.session
      if dbOk then
        Except.ok ({ a with session := s1, phase := ConversationPhase.DONE },
          CLOSING)
      else
        Except.error { a with session := s1 }
  | ConversationPhase.DONE => Except.ok (a, "")
  | _ => Except.ok (a, "")

/-- SurveyAgent.process_response.  The empty check uses the stripped
transcription and runs before the phase dispatch.  dbOk says whether
db.save_response (called inside _save_response, after
session.record_response) succeeds; on failure the exception propagates
before advance_to_next_question runs. -/
def process_response (a : AgentState) (transcription : String) (dbOk : Bool) :
    Except AgentState (AgentState × Bool × String) :=
  let clean_text := pyStrip transcription
  if clean_text = "" then
    match increment_retry a.session with
    | (true, s1) =>
        Except.ok ({ a with session := s1 }, false, REPEAT_REQUEST)
    | (false, s1) =>
        Except.ok ({ a with session := s1 }, false, CALL_LATER)
  else if a.phase = ConversationPhase.WAIT_IDENTITY then
    let a1 := { a with phase := ConversationPhase.CONFIRMED }
    match current_question a1.session with
    | none =>
        -- Python reads question.text_ur of a None question: AttributeError
        Except.error a1
    | some question =>
        let confirmed := format_identity_confirmed a1.session.employee_name
        let first_q := format_question 1 (pyOr question.text_ur question.text)
        Except.ok ({ a1 with phase := ConversationPhase.WAIT_ANSWER }, true,
          confirmed ++ "\n\n" ++ SURVEY_INTRO ++ "\n\n" ++ first_q)
  else if a.phase = ConversationPhase.WAIT_ANSWER then
    match current_question a.session with
    | some question =>
        -- _save_response: record in session, then the database write
        let s1 := record_response a.session question.id clean_text
        if dbOk then
          let s2 := advance_to_next_question s1
          if s2.current_question_index ≥ s2.questions.length then
            Except.ok ({ a with session := s2 }, true, CLOSING)
          else
            match current_question s2 with
            | some next_q =>
                let a2 : AgentState :=
                  { phase := ConversationPhase.WAIT_ANSWER, session := s2 }
                Except.ok (a2, true,
                  ACKNOWLEDGE_NEXT ++ "\n\n" ++
                    format_question (s2.current_question_index + 1)
                      (pyOr next_q.text_ur next_q.text))
            | none => Except.error { a with session := s2 }
        else
          Except.error { a with session := s1 }
    | none => Except.ok (a, false, TECHNICAL_ERROR)
  else
    Except.ok (a, false, REPEAT_REQUEST)

/-- SurveyAgent.skip_question. -/
def skip_question (a : AgentState) : Except AgentState (AgentState × String) :=
  match current_question a.session with
  | some question =>
      if question.required = false then
        let s2 := advance_to_next_question a.session
        if s2.current_question_index ≥ s2.questions.length then
          Except.ok ({ a with session := s2 }, CLOSING)
        else
          match current_question s2 with
          | some next_q =>
              Except.ok ({ a with session := s2 },
                SKIPPING ++ "\n\n" ++
                  format_question (s2.current_question_index + 1)
                    (pyOr next_q.text_ur next_q.text))
          | none => Except.error { a with session := s2 }
      else
        Except.ok (a, format_question (a.session.current_question_index + 1)
          question.text_ur)
  | none =>
      Except.ok (a, format_question (a.session.current_question_index + 1) "")

/-- The agent state embedded in a process_response result, whether the
call returned normally or an exception escaped. -/
def resultState (r : Except AgentState (AgentState × Bool × String)) :
    AgentState :=
  match r with
  | Except.error a => a
  | Except.ok (a, _, _) => a

/-- Outcome classification used by the spec for an advance call, read off
the post-state exactly as the /agent/respond route exposes it: ABANDONED
from the session state, otherwise COMPLETE from is_complete, otherwise
CONTINUE. -/
inductive Outcome where
  | CONTINUE
  | COMPLETE
  | ABANDONED
deriving DecidableEq, Repr

/-- Spec-side projection: the outcome of a turn, from the post-state. -/
def outcomeOf (a : AgentState) : Outcome :=
  if a.session.state = SessionState.ABANDONED then Outcome.ABANDONED
  else if is_complete a.session then Outcome.COMPLETE
  else Outcome.CONTINUE

/-! Helper notions used to state the claims. -/

/-- The responses dict after the first `ans.length` questions were each
answered in order: question i maps to `ans[i]`. -/
def responsesOf : List Question → List String → List (Nat × String)
  | q :: qs, ansHd :: ansTl => (q.id, ansHd) :: responsesOf qs ansTl
  | _, _ => []

/-- The canonical session of a run that has answered the first
`ans.length` questions: cursor past them, their answers recorded, retry
count 0.  With `ans = []` this is exactly a freshly created session
(SessionManager.create_session: state CREATED, cursor 0, no responses,
retry 0, max_retries 3 from the dataclass default). -/
def answeredSession (employee_name : String) (qs : List Question)
    (ans : List String) : SurveySession :=
  { employee_name := employee_name
    questions := qs
    state := if ans = [] then SessionState.CREATED else SessionState.IN_PROGRESS
    current_question_index := ans.length
    responses := responsesOf qs ans
    retry_count := 0
    max_retries := 3 }

/-- The prompt with which the agent asks question number i+1 of qs (the
ASK_QUESTION template over the Urdu text with the English fallback), or ""
when i is out of range. -/
def questionPrompt (qs : List Question) (i : Nat) : String :=
  match qs[i]? with
  | some q => format_question (i + 1) (pyOr q.text_ur q.text)
  | none => ""

/-- One externally callable operation on the agent: start (a
get_next_utterance turn), advance (process_response on a transcription),
or skip.  Each operation that performs a database write carries its own
dbOk flag saying whether that write succeeds, so traces cover failing
writes as well. -/
inductive Op where
  | start (dbOk : Bool)
  | advance (u : String) (dbOk : Bool)
  | skip
deriving DecidableEq, Repr

/-- The agent state after one operation, whether the call returned
normally or an exception escaped with the partially mutated state. -/
def applyOp (a : AgentState) : Op → AgentState
  | Op.start dbOk =>
      match get_next_utterance a dbOk with
      | Except.ok (a1, _) => a1
      | Except.error a1 => a1
  | Op.advance u dbOk => resultState (process_response a u dbOk)
  | Op.skip =>
      match skip_question a with
      | Except.ok (a1, _) => a1
      | Except.error a1 => a1

/-- The agent state after a sequence of operations. -/
def runOps (a : AgentState) (ops : List Op) : AgentState :=
  ops.foldl applyOp a

/-- Whether the durable response write of an operation succeeds: false
exactly for an advance whose db.save_response fails (a failing
db.complete_session in a start turn touches neither the responses nor
the cursor). -/
def writeOk (op : Op) : Bool :=
  match op with
  | Op.advance _ dbOk => dbOk
  | _ => true

/-- The strong state invariant of claim C7 (holds while every durable
response write succeeds): the cursor is bounded by the number of
questions, the recorded keys are pairwise distinct, and every recorded
key is the id of a question the cursor has passed. -/
def SessionInv (s : SurveySession) : Prop :=
  s.current_question_index ≤ s.questions.length ∧
  (s.responses.map Prod.fst).Nodup ∧
  s.responses.map Prod.fst ⊆
    (s.questions.take s.current_question_index).map Question.id

/-- The weak state invariant, preserved even across failing durable
writes: the recorded keys are ids of questions up to and including the
one at the cursor (a failing write leaves the current answer recorded
with the cursor not yet advanced). -/
def SessionInvW (s : SurveySession) : Prop :=
  s.current_question_index ≤ s.questions.length ∧
  (s.responses.map Prod.fst).Nodup ∧
  s.responses.map Prod.fst ⊆
    (s.questions.take (s.current_question_index + 1)).map Question.id

/-! Concrete fixtures used by counterexamples and witnesses. -/

/-- A required question with Urdu text. -/
def qRole : Question :=
  { id := 1, text := "What is your designation?",
    text_ur := "آپ کا عہدہ کیا ہے؟", required := true }

/-- A second required question with Urdu text. -/
def qBranch : Question :=
  { id := 2, text := "Which branch do you serve?",
    text_ur := "آپ کس برانچ میں کام کرتے ہیں؟", required := true }

/-- An optional question. -/
def qOptional : Question :=
  { id := 3, text := "Any suggestions?", text_ur := "کوئی تجویز؟",
    required := false }

/-- A required question whose Urdu text is empty (the schema default for
text_ur is the empty string), so the English fallback carries the prompt. -/
def qNoUrdu : Question :=
  { id := 7, text := "What is your designation?", text_ur := "",
    required := true }

/-- A freshly started two-question agent: phase WAIT_IDENTITY, cursor 0. -/
def C1ex : AgentState :=
  { phase := ConversationPhase.WAIT_IDENTITY,
    session := answeredSession "احمد" [qRole, qBranch] [] }

/-- A started agent that has already burnt one retry in WAIT_IDENTITY. -/
def C3ex : AgentState :=
  { phase := ConversationPhase.WAIT_IDENTITY,
    session := { answeredSession "احمد" [qRole, qBranch] [] with
                   retry_count := 1 } }

/-- An abandoned session (retry exhausted in WAIT_ANSWER: state ABANDONED,
retry count past the maximum, phase still WAIT_ANSWER). -/
def C4ex : AgentState :=
  { phase := ConversationPhase.WAIT_ANSWER,
    session := { answeredSession "احمد" [qRole, qBranch] [] with
                   retry_count := 4, state := SessionState.ABANDONED } }

/-- The session C4ex reaches after one more non-empty utterance. -/
def C4ex_after : SurveySession :=
  { employee_name := "احمد", questions := [qRole, qBranch],
    state := SessionState.IN_PROGRESS, current_question_index := 1,
    responses := [(1, "جی ہاں")], retry_count := 0, max_retries := 3 }

/-- A finished agent: phase DONE, all questions answered. -/
def C5session : SurveySession :=
  { employee_name := "احمد", questions := [qRole],
    state := SessionState.COMPLETED, current_question_index := 1,
    responses := [(1, "جواب")], retry_count := 0, max_retries := 3 }

def C5ex : AgentState :=
  { phase := ConversationPhase.DONE, session := C5session }

/-- A one-question agent waiting for the answer to its last question. -/
def C6ex : AgentState :=
  { phase := ConversationPhase.WAIT_ANSWER,
    session := answeredSession "احمد" [qRole] [] }

/-- A two-question agent in WAIT_ANSWER with some retries burnt. -/
def C8ex : AgentState :=
  { phase := ConversationPhase.WAIT_ANSWER,
    session := { answeredSession "احمد" [qRole, qBranch] [] with
                   retry_count := 2 } }

/-- An agent whose current question is required but has empty Urdu text. -/
def C9ex : AgentState :=
  { phase := ConversationPhase.WAIT_ANSWER,
    session := answeredSession "احمد" [qNoUrdu] [] }

/-! Helper lemmas about the session mutators. -/

/-- increment_retry below the maximum: returns true, no state change. -/
theorem increment_retry_le (s : SurveySession)
    (h : s.retry_count + 1 ≤ s.max_retries) :
    increment_retry s = (true, { s with retry_count := s.retry_count + 1 }) := by
  simp only [increment_retry]
  rw [if_neg]
  omega

/-- increment_retry past the maximum: returns false, state ABANDONED. -/
theorem increment_retry_gt (s : SurveySession)
    (h : s.retry_count + 1 > s.max_retries) :
    increment_retry s =
      (false, { s with retry_count := s.retry_count + 1,
                       state := SessionState.ABANDONED }) := by
  simp only [increment_retry]
  rw [if_pos]
  omega

/-- An empty (after stripping) utterance below the retry maximum: the call
only bumps the retry count and asks to repeat, in every phase. -/
theorem process_response_empty_le (a : AgentState) (u : String) (dbOk : Bool)
    (hu : pyStrip u = "") (h : a.session.retry_count + 1 ≤ a.session.max_retries) :
    process_response a u dbOk =
      Except.ok ({ a with session :=
          { a.session with retry_count := a.session.retry_count + 1 } },
        false, REPEAT_REQUEST) := by
  simp only [process_response, hu, if_pos, increment_retry_le a.session h]

/-- An empty (after stripping) utterance at the retry maximum: the call
abandons the session and returns the call-later line, in every phase. -/
theorem process_response_empty_gt (a : AgentState) (u : String) (dbOk : Bool)
    (hu : pyStrip u = "") (h : a.session.retry_count + 1 > a.session.max_retries) :
    process_response a u dbOk =
      Except.ok ({ a with session :=
          { a.session with retry_count := a.session.retry_count + 1,
                           state := SessionState.ABANDONED } },
        false, CALL_LATER) := by
  simp only [process_response, hu, if_pos, increment_retry_gt a.session h]

/-- dictInsert with a key not yet present appends the new entry. -/
theorem dictInsert_fresh (d : List (Nat × String)) (k : Nat) (v : String)
    (h : k ∉ d.map Prod.fst) : dictInsert d k v = d ++ [(k, v)] := by
  rw [dictInsert, if_neg]
  intro hany
  rw [List.any_eq_true] at hany
  obtain ⟨p, hp, hpk⟩ := hany
  rw [decide_eq_true_eq] at hpk
  exact h (hpk ▸ List.mem_map_of_mem Prod.fst hp)

/-- The recorded keys of a canonical run are the ids of the questions the
cursor has passed. -/
theorem responsesOf_map_fst (qs : List Question) (ans : List String) :
    (responsesOf qs ans).map Prod.fst =
      (qs.take ans.length).map Question.id := by
  induction qs generalizing ans with
  | nil => cases ans <;> simp [responsesOf]
  | cons q qs ih =>
      cases ans with
      | nil => simp [responsesOf]
      | cons a as => simp [responsesOf, ih]

/-- The length of the canonical responses list. -/
theorem responsesOf_length (qs : List Question) (ans : List String) :
    (responsesOf qs ans).length = min ans.length qs.length := by
  induction qs generalizing ans with
  | nil => cases ans <;> simp [responsesOf]
  | cons q qs ih =>
      cases ans with
      | nil => simp [responsesOf]
      | cons a as => simp [responsesOf, ih]; omega

/-- Answering one more question appends one entry keyed by the id of the
question at the cursor. -/
theorem responsesOf_append (qs : List Question) (ans : List String)
    (x : String) (q : Question) (hq : qs[ans.length]? = some q) :
    responsesOf qs (ans ++ [x]) = responsesOf qs ans ++ [(q.id, x)] := by
  induction ans generalizing qs with
  | nil =>
      cases qs with
      | nil => simp at hq
      | cons q0 qs0 =>
          simp at hq
          subst hq
          simp [responsesOf]
  | cons a as ih =>
      cases qs with
      | nil => simp at hq
      | cons q0 qs0 =>
          simp at hq
          simp [responsesOf]
          exact ih qs0 hq

/-- With pairwise distinct question ids, the id of the question at
position n does not occur among the ids before position n. -/
theorem take_id_not_mem (qs : List Question) (n : Nat) (q : Question)
    (hq : qs[n]? = some q) (hnodup : (qs.map Question.id).Nodup) :
    q.id ∉ (qs.take n).map Question.id := by
  intro hmem
  have hdisj : List.Disjoint ((qs.map Question.id).take n)
      ((qs.map Question.id).drop n) :=
    List.disjoint_take_drop hnodup le_rfl
  have hmem1 : q.id ∈ (qs.map Question.id).take n := by
    rw [← List.map_take]; exact hmem
  have hmem2 : q.id ∈ (qs.map Question.id).drop n := by
    rw [← List.map_drop]
    refine List.mem_map_of_mem Question.id ?_
    have h0 : (qs.drop n)[0]? = some q := by
      rw [List.getElem?_drop]
      simpa using hq
    exact List.getElem?_mem h0
  exact hdisj hmem1 hmem2

/-! Claim theorems. -/

/-- C10: the progress projection is total: it returns 0 when the question
list is empty (the guard that prevents the division by zero), and whenever
the cursor lies within [0, len(questions)] the value lies in [0, 100].
Python float arithmetic is modelled exactly by rationals. -/
theorem C10_progress_total (s : SurveySession) :
    (s.questions = [] → progress_percent s = 0) ∧
    (s.current_question_index ≤ s.questions.length →
      0 ≤ progress_percent s ∧ progress_percent s ≤ 100) := by
  constructor
  · intro h
    simp [progress_percent, h]
  · intro h
    by_cases hq : s.questions = []
    · simp [progress_percent, hq]
    · have h0 : s.questions.length ≠ 0 := by
        simpa [List.length_eq_zero] using hq
      have hlen : 0 < (s.questions.length : ℚ) := by
        exact_mod_cast Nat.pos_of_ne_zero h0
      have hdiv : (s.current_question_index : ℚ) /
          (s.questions.length : ℚ) ≤ 1 := by
        apply div_le_one_of_le₀
        · exact_mod_cast h
        · exact le_of_lt hlen
      constructor
      · rw [progress_percent, if_neg hq]
        positivity
      · rw [progress_percent, if_neg hq]
        linarith

/-- C10 witness: the theorem applied to an empty-question session and to a
two-question session with the cursor at 1. -/
theorem C10_progress_total_witness :
    progress_percent (answeredSession "احمد" [] []) = 0 ∧
    (0 ≤ progress_percent (answeredSession "احمد" [qRole, qBranch] ["جواب"]) ∧
      progress_percent (answeredSession "احمد" [qRole, qBranch] ["جواب"]) ≤ 100) :=
  ⟨(C10_progress_total (answeredSession "احمد" [] [])).1 rfl,
   (C10_progress_total (answeredSession "احمد" [qRole, qBranch] ["جواب"])).2
     (by decide)⟩

/-- C2: with one required question, an agent in WAIT_ANSWER, retry count
0 and max retries 3, four consecutive empty advance calls: the first three
return the repeat request with the session still live, the fourth flips
the state to ABANDONED and returns the call-later closing line, with no
answer recorded and the cursor still 0. -/
theorem C2_retry_exhaustion (s : SurveySession) (q : Question)
    (hq : s.questions = [q]) (_hreq : q.required = true)
    (hretry : s.retry_count = 0) (hmax : s.max_retries = 3)
    (hresp : s.responses = []) (hcur : s.current_question_index = 0)
    (hstate : s.state = SessionState.CREATED) :
    process_response ⟨ConversationPhase.WAIT_ANSWER, s⟩ "" true =
      Except.ok (⟨ConversationPhase.WAIT_ANSWER, { s with retry_count := 1 }⟩,
        false, REPEAT_REQUEST) ∧
    process_response ⟨ConversationPhase.WAIT_ANSWER,
        { s with retry_count := 1 }⟩ "" true =
      Except.ok (⟨ConversationPhase.WAIT_ANSWER, { s with retry_count := 2 }⟩,
        false, REPEAT_REQUEST) ∧
    process_response ⟨ConversationPhase.WAIT_ANSWER,
        { s with retry_count := 2 }⟩ "" true =
      Except.ok (⟨ConversationPhase.WAIT_ANSWER, { s with retry_count := 3 }⟩,
        false, REPEAT_REQUEST) ∧
    ({ s with retry_count := 3 } : SurveySession).state ≠
      SessionState.ABANDONED ∧
    process_response ⟨ConversationPhase.WAIT_ANSWER,
        { s with retry_count := 3 }⟩ "" true =
      Except.ok (⟨ConversationPhase.WAIT_ANSWER,
        { s with retry_count := 4, state := SessionState.ABANDONED }⟩,
        false, CALL_LATER) ∧
    ({ s with retry_count := 4, state := SessionState.ABANDONED } :
        SurveySession).responses = [] ∧
    ({ s with retry_count := 4, state := SessionState.ABANDONED } :
        SurveySession).current_question_index = 0 ∧
    outcomeOf ⟨ConversationPhase.WAIT_ANSWER,
        { s with retry_count := 4, state := SessionState.ABANDONED }⟩ =
      Outcome.ABANDONED := by
  obtain ⟨en, qs, st, ci, rs, rc, mr⟩ := s
  simp only at hq hretry hmax hresp hcur hstate
  subst hq hretry hmax hresp hcur hstate
  refine ⟨rfl, rfl, rfl, fun h => SessionState.noConfusion h, rfl, rfl, rfl,
    rfl⟩

/-- C2 witness: the fourth empty call on a concrete one-question session
abandons it. -/
theorem C2_retry_exhaustion_witness :
    process_response ⟨ConversationPhase.WAIT_ANSWER,
        { answeredSession "احمد" [qRole] [] with retry_count := 3 }⟩ "" true =
      Except.ok (⟨ConversationPhase.WAIT_ANSWER,
        { answeredSession "احمد" [qRole] [] with
            retry_count := 4, state := SessionState.ABANDONED }⟩,
        false, CALL_LATER) :=
  (C2_retry_exhaustion (answeredSession "احمد" [qRole] []) qRole rfl rfl rfl
    rfl rfl rfl rfl).2.2.2.2.1

/-- C1 counterexample: a single-space utterance is a non-empty string,
yet the started agent in WAIT_IDENTITY does not transition to WAIT_ANSWER
on it: process_response strips it to empty first, burns a retry, returns
failure with the repeat request, and stays in WAIT_IDENTITY with cursor
0 — not the claimed compound identity step. -/
theorem C1_counterexample :
    " " ≠ "" ∧
    process_response C1ex " " true =
      Except.ok (⟨ConversationPhase.WAIT_IDENTITY,
        { C1ex.session with retry_count := 1 }⟩, false, REPEAT_REQUEST) := by
  constructor
  · decide
  · rfl

/-- C3 counterexample: an agent in WAIT_IDENTITY with retry count 1
receives a non-empty utterance; the call advances the phase to
WAIT_ANSWER but returns with the retry count still 1, not 0 — the
identity-confirmation phase advance does not reset the retry counter. -/
theorem C3_counterexample :
    C3ex.session.retry_count = 1 ∧
    process_response C3ex "جی ہاں" true =
      Except.ok (⟨ConversationPhase.WAIT_ANSWER, C3ex.session⟩, true,
        format_identity_confirmed "احمد" ++ "\n\n" ++ SURVEY_INTRO ++
          "\n\n" ++ format_question 1 (pyOr qRole.text_ur qRole.text)) ∧
    (1 : Nat) ≠ 0 := by
  refine ⟨rfl, rfl, by decide⟩

/-- C4 counterexample: a session whose state is ABANDONED (retry
exhausted in WAIT_ANSWER) receives a further non-empty utterance; far
from being a no-op returning outcome ABANDONED with an empty utterance,
the call records an answer, advances the cursor and moves the session
state back to IN_PROGRESS. -/
theorem C4_counterexample :
    C4ex.session.state = SessionState.ABANDONED ∧
    process_response C4ex "جی ہاں" true =
      Except.ok (⟨ConversationPhase.WAIT_ANSWER, C4ex_after⟩, true,
        ACKNOWLEDGE_NEXT ++ "\n\n" ++
          format_question 2 (pyOr qBranch.text_ur qBranch.text)) ∧
    C4ex_after.state = SessionState.IN_PROGRESS ∧
    C4ex_after.current_question_index = 1 ∧
    C4ex_after.responses = [(1, "جی ہاں")] := by
  refine ⟨rfl, rfl, rfl, rfl, rfl⟩

/-- C5 counterexample: advance on a DONE-phase agent does not return an
empty utterance: a non-empty utterance falls into the unexpected-phase
branch and returns the repeat request, and an empty utterance even
mutates the session by bumping the retry count. -/
theorem C5_counterexample :
    process_response C5ex "ٹھیک ہے" true =
      Except.ok (C5ex, false, REPEAT_REQUEST) ∧
    REPEAT_REQUEST ≠ "" ∧
    process_response C5ex "" true =
      Except.ok (⟨ConversationPhase.DONE,
        { C5session with retry_count := 1 }⟩, false, REPEAT_REQUEST) := by
  refine ⟨rfl, by decide, rfl⟩

/-- C6 counterexample: the advance call that records the answer to the
last question brings the cursor to len(questions) and returns the closing
utterance, but leaves the phase WAIT_ANSWER — not CLOSING or DONE as the
claimed invariant requires. -/
theorem C6_counterexample :
    process_response C6ex "جواب" true =
      Except.ok (⟨ConversationPhase.WAIT_ANSWER,
        answeredSession "احمد" [qRole] ["جواب"]⟩, true, CLOSING) ∧
    (answeredSession "احمد" [qRole] ["جواب"]).current_question_index =
      (answeredSession "احمد" [qRole] ["جواب"]).questions.length ∧
    ConversationPhase.WAIT_ANSWER ≠ ConversationPhase.CLOSING ∧
    ConversationPhase.WAIT_ANSWER ≠ ConversationPhase.DONE := by
  refine ⟨rfl, rfl, by decide, by decide⟩

/-- C8 counterexample: in WAIT_ANSWER with a non-empty utterance and a
failing database write, the call does not advance the in-memory state as
on success and does not return an utterance: the answer is recorded, the
exception propagates, and the cursor stays 0 instead of advancing. -/
theorem C8_counterexample :
    process_response C8ex "جواب" false =
      Except.error ⟨ConversationPhase.WAIT_ANSWER,
        { C8ex.session with responses := [(1, "جواب")], retry_count := 0 }⟩ ∧
    ({ C8ex.session with responses := [(1, "جواب")], retry_count := 0 } :
        SurveySession).current_question_index = 0 := by
  refine ⟨rfl, rfl⟩

/-- C9 counterexample: skip on a required question whose Urdu text is
empty re-emits the question-number template over the empty Urdu text,
which differs from the prompt the agent actually asks that question with
(the Urdu text with English fallback). -/
theorem C9_counterexample :
    skip_question C9ex = Except.ok (C9ex, format_question 1 "") ∧
    questionPrompt [qNoUrdu] 0 =
      format_question 1 "What is your designation?" ∧
    format_question 1 "" ≠ format_question 1 "What is your designation?" := by
  refine ⟨rfl, rfl, by decide⟩

/-- C4 amended: process_response never inspects the session state, so
ABANDONED is not absorbing.  What does hold: an empty utterance on an
abandoned session (retry count at or past the maximum) records nothing,
keeps the cursor, keeps the state ABANDONED, and returns the call-later
line — a non-empty utterance, not an empty one; the outcome read off the
post-state is still ABANDONED.  A non-empty utterance, however, is
processed purely by phase and can record an answer and leave ABANDONED
(see the counterexample). -/
theorem C4_amended (a : AgentState)
    (_hstate : a.session.state = SessionState.ABANDONED)
    (hretry : a.session.retry_count ≥ a.session.max_retries) :
    process_response a "" true =
      Except.ok ({ a with session :=
          { a.session with
              retry_count := a.session.retry_count + 1,
              state := SessionState.ABANDONED } },
        false, CALL_LATER) ∧
    CALL_LATER ≠ "" ∧
    outcomeOf { a with session :=
        { a.session with
            retry_count := a.session.retry_count + 1,
            state := SessionState.ABANDONED } } =
      Outcome.ABANDONED := by
  refine ⟨process_response_empty_gt a "" true rfl (by omega), by decide, ?_⟩
  simp [outcomeOf]

/-- C4 witness: the amended statement at a concrete abandoned session. -/
theorem C4_amended_witness :
    process_response C4ex "" true =
      Except.ok ({ C4ex with session :=
          { C4ex.session with
              retry_count := C4ex.session.retry_count + 1,
              state := SessionState.ABANDONED } },
        false, CALL_LATER) :=
  (C4_amended C4ex rfl (by decide)).1

/-- C5 amended: advance on a DONE-phase agent is not the claimed
COMPLETE/empty-utterance no-op; instead, a non-stripped-empty utterance
leaves the whole agent state unchanged and returns failure with the
repeat-request line, while a stripped-empty utterance keeps the cursor
and the answers but bumps the retry count and returns a non-empty
repeat/call-later line. -/
theorem C5_amended (a : AgentState) (u : String)
    (hph : a.phase = ConversationPhase.DONE) :
    (pyStrip u ≠ "" → process_response a u true =
      Except.ok (a, false, REPEAT_REQUEST)) ∧
    (pyStrip u = "" →
      ∃ s1 out, process_response a u true =
          Except.ok ({ a with session := s1 }, false, out) ∧
        out ≠ "" ∧ s1.responses = a.session.responses ∧
        s1.current_question_index = a.session.current_question_index) := by
  constructor
  · intro hu
    simp [process_response, hu, hph]
  · intro hu
    rcases le_or_lt (a.session.retry_count + 1) a.session.max_retries with
      h | h
    · exact ⟨{ a.session with retry_count := a.session.retry_count + 1 },
        REPEAT_REQUEST, process_response_empty_le a u true hu h,
        by decide, rfl, rfl⟩
    · exact ⟨{ a.session with
          retry_count := a.session.retry_count + 1,
          state := SessionState.ABANDONED },
        CALL_LATER, process_response_empty_gt a u true hu h,
        by decide, rfl, rfl⟩

/-- C5 witness: a non-empty utterance on a concrete DONE agent returns
the repeat request and leaves the agent unchanged. -/
theorem C5_amended_witness :
    process_response C5ex "ٹھیک ہے" true =
      Except.ok (C5ex, false, REPEAT_REQUEST) :=
  (C5_amended C5ex "ٹھیک ہے" rfl).1 (by decide)

/-- C8 amended: when the durable write fails in WAIT_ANSWER on a
non-empty utterance, the answer is already recorded in the in-memory
session and the retry count reset, but the cursor does not advance and
the exception propagates to the caller instead of a normal utterance
being returned. -/
theorem C8_amended (a : AgentState) (u : String) (q : Question)
    (hph : a.phase = ConversationPhase.WAIT_ANSWER) (hu : pyStrip u ≠ "")
    (hq : current_question a.session = some q) :
    process_response a u false =
      Except.error ⟨a.phase, record_response a.session q.id (pyStrip u)⟩ ∧
    (record_response a.session q.id (pyStrip u)).current_question_index =
      a.session.current_question_index ∧
    (record_response a.session q.id (pyStrip u)).retry_count = 0 := by
  refine ⟨?_, rfl, rfl⟩
  simp [process_response, hu, hph, hq]

/-- C8 witness: the amended statement at a concrete two-question agent
with a failing write. -/
theorem C8_amended_witness :
    process_response C8ex "جواب" false =
      Except.error ⟨C8ex.phase,
        record_response C8ex.session qRole.id (pyStrip "جواب")⟩ :=
  (C8_amended C8ex "جواب" qRole rfl (by decide) rfl).1

/-- C9 amended: skip on an optional current question advances the cursor
by exactly one and adds nothing to the answers; skip on a required
current question is a no-op that re-emits the question-number template
over the question's Urdu text only (without the English fallback used
when the question is asked, so the two coincide exactly when the Urdu
text is non-empty). -/
theorem C9_amended (a : AgentState) (q : Question)
    (hq : current_question a.session = some q) :
    (q.required = false →
      (∃ out, skip_question a =
        Except.ok (⟨a.phase, advance_to_next_question a.session⟩, out)) ∧
      (advance_to_next_question a.session).current_question_index =
        a.session.current_question_index + 1 ∧
      (advance_to_next_question a.session).responses =
        a.session.responses) ∧
    (q.required = true →
      skip_question a =
        Except.ok (a,
          format_question (a.session.current_question_index + 1)
            q.text_ur)) := by
  constructor
  · intro hreq
    refine ⟨?_, rfl, rfl⟩
    by_cases hend : (advance_to_next_question a.session).current_question_index
        ≥ (advance_to_next_question a.session).questions.length
    · exact ⟨CLOSING, by simp [skip_question, hq, hreq, hend]⟩
    · push_neg at hend
      cases hnq : current_question (advance_to_next_question a.session) with
      | none =>
          exfalso
          rw [current_question, List.getElem?_eq_none_iff] at hnq
          omega
      | some nq =>
          refine ⟨SKIPPING ++ "\n\n" ++
            format_question
              ((advance_to_next_question a.session).current_question_index + 1)
              (pyOr nq.text_ur nq.text), ?_⟩
          simp [skip_question, hq, hreq, hnq]
          omega
  · intro hreq
    simp [skip_question, hq, hreq]

/-- C9 witness: optional skip advances the cursor on a concrete session;
required skip re-emits the Urdu-only template on a concrete session. -/
theorem C9_amended_witness :
    (advance_to_next_question
        (answeredSession "احمد" [qOptional] [])).current_question_index =
      (answeredSession "احمد" [qOptional] []).current_question_index + 1 ∧
    skip_question ⟨ConversationPhase.WAIT_ANSWER,
        answeredSession "احمد" [qNoUrdu] []⟩ =
      Except.ok (⟨ConversationPhase.WAIT_ANSWER,
        answeredSession "احمد" [qNoUrdu] []⟩,
        format_question 1 qNoUrdu.text_ur) :=
  ⟨((C9_amended ⟨ConversationPhase.WAIT_ANSWER,
      answeredSession "احمد" [qOptional] []⟩ qOptional rfl).1 rfl).2.1,
   (C9_amended ⟨ConversationPhase.WAIT_ANSWER,
      answeredSession "احمد" [qNoUrdu] []⟩ qNoUrdu rfl).2 rfl⟩

/-- Branch lemma: a non-empty utterance in WAIT_IDENTITY with a current
question performs the compound step: phase WAIT_ANSWER, session
untouched, confirmation + intro + question 1. -/
theorem process_response_identity (s : SurveySession) (u : String)
    (q : Question) (hu : pyStrip u ≠ "") (hq : current_question s = some q) :
    process_response ⟨ConversationPhase.WAIT_IDENTITY, s⟩ u true =
      Except.ok (⟨ConversationPhase.WAIT_ANSWER, s⟩, true,
        format_identity_confirmed s.employee_name ++ "\n\n" ++
          SURVEY_INTRO ++ "\n\n" ++
          format_question 1 (pyOr q.text_ur q.text)) := by
  simp [process_response, hu, hq]

/-- Branch lemma: a non-empty utterance in WAIT_ANSWER answering the last
question records it, advances the cursor to the end and returns the
closing utterance with the phase left WAIT_ANSWER. -/
theorem process_response_answer_last (s : SurveySession) (u : String)
    (q : Question) (hu : pyStrip u ≠ "") (hq : current_question s = some q)
    (hlast : s.questions.length ≤ s.current_question_index + 1) :
    process_response ⟨ConversationPhase.WAIT_ANSWER, s⟩ u true =
      Except.ok (⟨ConversationPhase.WAIT_ANSWER,
        advance_to_next_question (record_response s q.id (pyStrip u))⟩,
        true, CLOSING) := by
  simp [process_response, hu, hq, advance_to_next_question,
    record_response, hlast]

/-- Branch lemma: a non-empty utterance in WAIT_ANSWER answering a
non-last question records it, advances the cursor and returns the
acknowledgment plus the next question. -/
theorem process_response_answer_more (s : SurveySession) (u : String)
    (q nq : Question) (hu : pyStrip u ≠ "")
    (hq : current_question s = some q)
    (hmore : s.current_question_index + 1 < s.questions.length)
    (hnq : s.questions[s.current_question_index + 1]? = some nq) :
    process_response ⟨ConversationPhase.WAIT_ANSWER, s⟩ u true =
      Except.ok (⟨ConversationPhase.WAIT_ANSWER,
        advance_to_next_question (record_response s q.id (pyStrip u))⟩,
        true, ACKNOWLEDGE_NEXT ++ "\n\n" ++
          format_question (s.current_question_index + 2)
            (pyOr nq.text_ur nq.text)) := by
  have hnot : ¬ (s.questions.length ≤ s.current_question_index + 1) := by
    omega
  have hq2 : s.questions[s.current_question_index]? = some q := hq
  simp [process_response, hu, hq2, current_question,
    advance_to_next_question, record_response, hnot, hnq]

/-- C3 amended: the retry count is reset to 0 by every successful answer
capture (the WAIT_ANSWER path with a current question resets it via
record_response, on every exit of the call), but the WAIT_IDENTITY
identity-confirmation phase advance leaves the retry count exactly as it
was. -/
theorem C3_amended (a : AgentState) (u : String) (hu : pyStrip u ≠ "") :
    (a.phase = ConversationPhase.WAIT_ANSWER →
      (∃ q, current_question a.session = some q) →
      (resultState (process_response a u true)).session.retry_count = 0) ∧
    (a.phase = ConversationPhase.WAIT_IDENTITY →
      (resultState (process_response a u true)).session.retry_count =
        a.session.retry_count) := by
  obtain ⟨ph, s⟩ := a
  constructor
  · rintro hph ⟨q, hq⟩
    simp only at hph hq
    subst hph
    by_cases hend : s.questions.length ≤ s.current_question_index + 1
    · rw [process_response_answer_last s u q hu hq hend]
      simp [resultState, advance_to_next_question, record_response]
    · push_neg at hend
      cases hnq : s.questions[s.current_question_index + 1]? with
      | none =>
          exfalso
          rw [List.getElem?_eq_none_iff] at hnq
          omega
      | some nq =>
          rw [process_response_answer_more s u q nq hu hq hend hnq]
          simp [resultState, advance_to_next_question, record_response]
  · intro hph
    simp only at hph
    subst hph
    cases hq : current_question s with
    | none => simp [process_response, hu, hq, resultState]
    | some q =>
        rw [process_response_identity s u q hu hq]
        simp [resultState]

/-- C3 witness: a successful capture on a concrete agent with two burnt
retries ends with retry count 0. -/
theorem C3_amended_witness :
    (resultState (process_response C8ex "جواب" true)).session.retry_count
      = 0 :=
  (C3_amended C8ex "جواب" (by decide)).1 rfl ⟨qRole, rfl⟩

/-- C6 amended: the advance call that records the answer to the last
question does bring the cursor to len(questions), return the closing
utterance and yield outcome COMPLETE — but it leaves the phase
WAIT_ANSWER; the phase only reaches CLOSING/DONE through
get_next_utterance, which this conversation path never calls again. -/
theorem C6_amended (a : AgentState) (u : String) (q : Question)
    (hph : a.phase = ConversationPhase.WAIT_ANSWER) (hu : pyStrip u ≠ "")
    (hq : current_question a.session = some q)
    (hlast : a.session.current_question_index + 1 =
      a.session.questions.length) :
    process_response a u true =
      Except.ok (⟨ConversationPhase.WAIT_ANSWER,
        advance_to_next_question
          (record_response a.session q.id (pyStrip u))⟩, true, CLOSING) ∧
    (advance_to_next_question
        (record_response a.session q.id (pyStrip u))).current_question_index
      = (advance_to_next_question
          (record_response a.session q.id (pyStrip u))).questions.length ∧
    outcomeOf ⟨ConversationPhase.WAIT_ANSWER,
        advance_to_next_question
          (record_response a.session q.id (pyStrip u))⟩ =
      Outcome.COMPLETE := by
  obtain ⟨ph, s⟩ := a
  simp only at hph hq hlast
  subst hph
  refine ⟨process_response_answer_last s u q hu hq (by omega), ?_, ?_⟩
  · simp [advance_to_next_question, record_response]
    omega
  · simp [outcomeOf, is_complete, advance_to_next_question,
      record_response]
    omega

/-- C6 witness: the amended statement at a concrete one-question agent
answering its last question. -/
theorem C6_amended_witness :
    process_response ⟨ConversationPhase.WAIT_ANSWER,
        answeredSession "احمد" [qRole] []⟩ "جواب" true =
      Except.ok (⟨ConversationPhase.WAIT_ANSWER,
        advance_to_next_question
          (record_response (answeredSession "احمد" [qRole] [])
            qRole.id (pyStrip "جواب"))⟩, true, CLOSING) :=
  (C6_amended ⟨ConversationPhase.WAIT_ANSWER,
    answeredSession "احمد" [qRole] []⟩ "جواب" qRole rfl (by decide) rfl
    rfl).1

/-- Answering one question from the canonical mid-run state lands in the
canonical state with one more answer. -/
theorem answer_session_eq (name : String) (qs : List Question)
    (ans : List String) (u : String) (q : Question)
    (hq : qs[ans.length]? = some q)
    (hnodup : (qs.map Question.id).Nodup) :
    advance_to_next_question
        (record_response (answeredSession name qs ans) q.id (pyStrip u)) =
      answeredSession name qs (ans ++ [pyStrip u]) := by
  have hfresh : q.id ∉ (responsesOf qs ans).map Prod.fst := by
    rw [responsesOf_map_fst]
    exact take_id_not_mem qs ans.length q hq hnodup
  simp [advance_to_next_question, record_response, answeredSession,
    dictInsert_fresh _ _ _ hfresh,
    responsesOf_append qs ans (pyStrip u) q hq]

/-- One full WAIT_ANSWER step from the canonical mid-run state: the
stripped utterance is recorded under the current question's id, the
cursor advances, and the output is the closing line on the last question
and the acknowledgment plus next question otherwise. -/
theorem answer_step (name : String) (qs : List Question)
    (ans : List String) (u : String) (hu : pyStrip u ≠ "")
    (hnodup : (qs.map Question.id).Nodup) (hlen : ans.length < qs.length) :
    process_response ⟨ConversationPhase.WAIT_ANSWER,
        answeredSession name qs ans⟩ u true =
      Except.ok (⟨ConversationPhase.WAIT_ANSWER,
        answeredSession name qs (ans ++ [pyStrip u])⟩, true,
        if ans.length + 1 = qs.length then CLOSING
        else ACKNOWLEDGE_NEXT ++ "\n\n" ++
          questionPrompt qs (ans.length + 1)) := by
  obtain ⟨q, hq⟩ : ∃ q, qs[ans.length]? = some q :=
    ⟨qs.get ⟨ans.length, hlen⟩, List.getElem?_eq_getElem hlen⟩
  have hcq : current_question (answeredSession name qs ans) = some q := hq
  by_cases hend : ans.length + 1 = qs.length
  · rw [process_response_answer_last _ u q hu hcq (by
      show qs.length ≤ ans.length + 1
      omega)]
    rw [answer_session_eq name qs ans u q hq hnodup, if_pos hend]
  · obtain ⟨nq, hnq⟩ : ∃ nq, qs[ans.length + 1]? = some nq :=
      ⟨qs.get ⟨ans.length + 1, by omega⟩,
        List.getElem?_eq_getElem (by omega)⟩
    rw [process_response_answer_more _ u q nq hu hcq (by
        show ans.length + 1 < qs.length
        omega) hnq]
    rw [answer_session_eq name qs ans u q hq hnodup, if_neg hend]
    simp [questionPrompt, hnq, answeredSession]

/-- C1 amended: the happy path as the code implements it.  The claim
holds once two consequences of the strip step are folded in: an
utterance drives a transition exactly when it is non-empty after
stripping whitespace, and the recorded answer is the stripped utterance
(not the verbatim one).  With pairwise-distinct question ids, a session
whose questions list is non-empty: start moves GREETING to WAIT_IDENTITY
with the greeting; a stripped-non-empty utterance in WAIT_IDENTITY
performs the compound step to WAIT_ANSWER, emitting confirmation, intro
and question 1 with the cursor still 0 and the session otherwise
untouched; each stripped-non-empty utterance in WAIT_ANSWER records the
stripped text under the current question's id and advances the cursor,
emitting the acknowledgment plus the next question while questions
remain; the one answering the last question emits the closing utterance
with outcome COMPLETE and exactly len(questions) recorded answers. -/
theorem C1_amended (name : String) (qs : List Question)
    (ans : List String) (u : String) (hne : qs ≠ [])
    (hnodup : (qs.map Question.id).Nodup)
    (hlen : ans.length < qs.length) (hu : pyStrip u ≠ "") :
    (get_next_utterance ⟨ConversationPhase.GREETING,
        answeredSession name qs []⟩ true =
      Except.ok (⟨ConversationPhase.WAIT_IDENTITY,
        answeredSession name qs []⟩, format_greeting name)) ∧
    (process_response ⟨ConversationPhase.WAIT_IDENTITY,
        answeredSession name qs []⟩ u true =
      Except.ok (⟨ConversationPhase.WAIT_ANSWER,
        answeredSession name qs []⟩, true,
        format_identity_confirmed name ++ "\n\n" ++ SURVEY_INTRO ++
          "\n\n" ++ questionPrompt qs 0)) ∧
    (process_response ⟨ConversationPhase.WAIT_ANSWER,
        answeredSession name qs ans⟩ u true =
      Except.ok (⟨ConversationPhase.WAIT_ANSWER,
        answeredSession name qs (ans ++ [pyStrip u])⟩, true,
        if ans.length + 1 = qs.length then CLOSING
        else ACKNOWLEDGE_NEXT ++ "\n\n" ++
          questionPrompt qs (ans.length + 1))) ∧
    (answeredSession name qs (ans ++ [pyStrip u])).responses.length =
      ans.length + 1 ∧
    (ans.length + 1 = qs.length →
      outcomeOf ⟨ConversationPhase.WAIT_ANSWER,
          answeredSession name qs (ans ++ [pyStrip u])⟩ =
        Outcome.COMPLETE) := by
  refine ⟨rfl, ?_, answer_step name qs ans u hu hnodup hlen, ?_, ?_⟩
  · obtain ⟨q0, qs0, rfl⟩ := List.exists_cons_of_ne_nil hne
    rw [process_response_identity (answeredSession name (q0 :: qs0) [])
      u q0 hu (by simp [current_question, answeredSession])]
    simp [answeredSession, questionPrompt]
  · show (responsesOf qs (ans ++ [pyStrip u])).length = ans.length + 1
    rw [responsesOf_length]
    simp
    omega
  · intro hend
    simp [outcomeOf, is_complete, answeredSession]
    omega

/-- C1 witness: the last answer of a concrete two-question session,
emitting the closing line with outcome COMPLETE. -/
theorem C1_amended_witness :
    (process_response ⟨ConversationPhase.WAIT_ANSWER,
        answeredSession "احمد" [qRole, qBranch] ["جواب اول"]⟩
        "جواب دوم" true =
      Except.ok (⟨ConversationPhase.WAIT_ANSWER,
        answeredSession "احمد" [qRole, qBranch]
          (["جواب اول"] ++ [pyStrip "جواب دوم"])⟩, true,
        if ["جواب اول"].length + 1 = [qRole, qBranch].length then CLOSING
        else ACKNOWLEDGE_NEXT ++ "\n\n" ++
          questionPrompt [qRole, qBranch] (["جواب اول"].length + 1))) ∧
    outcomeOf ⟨ConversationPhase.WAIT_ANSWER,
        answeredSession "احمد" [qRole, qBranch]
          (["جواب اول"] ++ [pyStrip "جواب دوم"])⟩ = Outcome.COMPLETE :=
  ⟨(C1_amended "احمد" [qRole, qBranch] ["جواب اول"] "جواب دوم"
      (by decide) (by decide) (by decide) (by decide)).2.2.1,
   (C1_amended "احمد" [qRole, qBranch] ["جواب اول"] "جواب دوم"
      (by decide) (by decide) (by decide) (by decide)).2.2.2.2 rfl⟩

/-- The keys after a dictInsert whose key is already present are
unchanged (the entry is replaced in place). -/
theorem dictInsert_map_fst_mem (d : List (Nat × String)) (k : Nat)
    (v : String) (h : k ∈ d.map Prod.fst) :
    (dictInsert d k v).map Prod.fst = d.map Prod.fst := by
  have hany : d.any (fun p => p.1 = k) = true := by
    simp only [List.any_eq_true, decide_eq_true_eq]
    rcases List.mem_map.1 h with ⟨p, hp, he⟩
    exact ⟨p, hp, he⟩
  rw [dictInsert, if_pos hany, List.map_map]
  apply List.map_congr_left
  intro p hp
  by_cases hpk : p.1 = k
  · simp [hpk]
  · simp [hpk]

/-- One get_next_utterance turn never touches the questions, the cursor
or the responses (only phase, state and completion bookkeeping move),
whether or not its database write succeeds. -/
theorem startOp_fields (a : AgentState) (dbOk : Bool) :
    (applyOp a (Op.start dbOk)).session.questions =
      a.session.questions ∧
    (applyOp a (Op.start dbOk)).session.current_question_index =
      a.session.current_question_index ∧
    (applyOp a (Op.start dbOk)).session.responses =
      a.session.responses := by
  obtain ⟨ph, s⟩ := a
  cases ph with
  | GREETING => simp [applyOp, get_next_utterance]
  | WAIT_IDENTITY => simp [applyOp, get_next_utterance]
  | CONFIRMED => simp [applyOp, get_next_utterance]
  | INTRO => simp [applyOp, get_next_utterance]
  | ASK_QUESTION =>
      simp only [applyOp, get_next_utterance]
      cases current_question s <;> simp
  | WAIT_ANSWER => simp [applyOp, get_next_utterance]
  | ACKNOWLEDGE =>
      simp only [applyOp, get_next_utterance]
      by_cases h : s.current_question_index ≥ s.questions.length
      · simp [h]
      · simp only [h, if_false]
        cases hq : current_question s <;> simp
  | CLOSING =>
      cases dbOk <;> simp [applyOp, get_next_utterance, complete]
  | DONE => simp [applyOp, get_next_utterance]

/-- One skip turn either leaves the session unchanged or advances the
cursor from strictly below the number of questions, touching nothing
else. -/
theorem skipOp_cases (a : AgentState) :
    (applyOp a Op.skip).session = a.session ∨
    ((applyOp a Op.skip).session = advance_to_next_question a.session ∧
      a.session.current_question_index < a.session.questions.length) := by
  simp only [applyOp, skip_question]
  cases hq : current_question a.session with
  | none => simp
  | some q =>
      have hlt : a.session.current_question_index <
          a.session.questions.length := by
        rw [current_question] at hq
        exact (List.getElem?_eq_some_iff.1 hq).1
      by_cases hreq : q.required = false
      · by_cases hend : (advance_to_next_question a.session).current_question_index
            ≥ (advance_to_next_question a.session).questions.length
        · right
          refine ⟨?_, hlt⟩
          simp [hreq, hend]
        · right
          refine ⟨?_, hlt⟩
          cases hnq : current_question (advance_to_next_question a.session) <;>
            simp [hreq, hend, hnq]
      · left
        simp [hreq]

/-- increment_retry does not touch the questions, the cursor or the
responses. -/
theorem increment_retry_fields (s : SurveySession) :
    (increment_retry s).2.questions = s.questions ∧
    (increment_retry s).2.current_question_index =
      s.current_question_index ∧
    (increment_retry s).2.responses = s.responses := by
  simp only [increment_retry]
  split <;> simp

/-- One advance turn either leaves questions, cursor and responses
unchanged, or — with a current question and the cursor strictly below
the number of questions — records the answer and advances the cursor
when the durable write succeeds, and merely records the answer (the
exception propagating before advance_to_next_question) when it fails. -/
theorem advanceOp_cases (a : AgentState) (u : String) (dbOk : Bool) :
    ((applyOp a (Op.advance u dbOk)).session.questions =
        a.session.questions ∧
      (applyOp a (Op.advance u dbOk)).session.current_question_index =
        a.session.current_question_index ∧
      (applyOp a (Op.advance u dbOk)).session.responses =
        a.session.responses) ∨
    (∃ q, current_question a.session = some q ∧
      a.session.current_question_index < a.session.questions.length ∧
      ((applyOp a (Op.advance u dbOk)).session =
          advance_to_next_question
            (record_response a.session q.id (pyStrip u)) ∨
        (dbOk = false ∧
          (applyOp a (Op.advance u dbOk)).session =
            record_response a.session q.id (pyStrip u)))) := by
  by_cases hu : pyStrip u = ""
  · left
    have hf := increment_retry_fields a.session
    rcases hinc : increment_retry a.session with ⟨b, s1⟩
    rw [hinc] at hf
    cases b <;>
      simp [applyOp, process_response, resultState, hu, hinc] <;>
      exact ⟨hf.1, hf.2.1, hf.2.2⟩
  · by_cases hwi : a.phase = ConversationPhase.WAIT_IDENTITY
    · left
      cases hq : current_question a.session <;>
        simp [applyOp, process_response, resultState, hu, hwi, hq]
    · by_cases hwa : a.phase = ConversationPhase.WAIT_ANSWER
      · cases hq : current_question a.session with
        | none =>
            left
            simp [applyOp, process_response, resultState, hu, hwi, hwa, hq]
        | some q =>
            right
            have hlt : a.session.current_question_index <
                a.session.questions.length := by
              rw [current_question] at hq
              exact (List.getElem?_eq_some_iff.1 hq).1
            refine ⟨q, rfl, hlt, ?_⟩
            cases dbOk with
            | true =>
                left
                by_cases hend : (advance_to_next_question
                      (record_response a.session q.id
                        (pyStrip u))).current_question_index ≥
                    (advance_to_next_question
                      (record_response a.session q.id
                        (pyStrip u))).questions.length
                · simp [applyOp, process_response, resultState, hu, hwi,
                    hwa, hq, hend]
                · cases hnq : current_question (advance_to_next_question
                        (record_response a.session q.id (pyStrip u))) <;>
                    simp [applyOp, process_response, resultState, hu,
                      hwi, hwa, hq, hend, hnq]
            | false =>
                right
                refine ⟨rfl, ?_⟩
                simp [applyOp, process_response, resultState, hu, hwi,
                  hwa, hq]
      · left
        simp [applyOp, process_response, resultState, hu, hwi, hwa]

/-- Recording the current answer and advancing preserves the strong
session invariant. -/
theorem record_advance_inv (s : SurveySession) (q : Question) (v : String)
    (hq : current_question s = some q) (hinv : SessionInv s) :
    SessionInv (advance_to_next_question (record_response s q.id v)) := by
  obtain ⟨h1, h2, h3⟩ := hinv
  have hqget : s.questions[s.current_question_index]? = some q := hq
  have hlt : s.current_question_index < s.questions.length :=
    (List.getElem?_eq_some_iff.1 hqget).1
  have htake : (s.questions.take (s.current_question_index + 1)).map
      Question.id =
      (s.questions.take s.current_question_index).map Question.id ++
        [q.id] := by
    rw [List.take_succ]
    simp [hqget]
  refine ⟨?_, ?_, ?_⟩
  · simp only [advance_to_next_question, record_response]
    omega
  · simp only [advance_to_next_question, record_response]
    by_cases hmem : q.id ∈ s.responses.map Prod.fst
    · rw [dictInsert_map_fst_mem _ _ _ hmem]
      exact h2
    · rw [dictInsert_fresh _ _ _ hmem]
      rw [List.map_append]
      simp [List.nodup_append, h2]
      intro x hx
      exact hmem (List.mem_map_of_mem Prod.fst hx)
  · simp only [advance_to_next_question, record_response, htake]
    by_cases hmem : q.id ∈ s.responses.map Prod.fst
    · rw [dictInsert_map_fst_mem _ _ _ hmem]
      intro x hx
      exact List.mem_append_left _ (h3 hx)
    · rw [dictInsert_fresh _ _ _ hmem, List.map_append]
      rw [List.append_subset]
      constructor
      · intro x hx
        exact List.mem_append_left _ (h3 hx)
      · intro x hx
        simp only [List.map_cons, List.map_nil, List.mem_singleton] at hx
        subst hx
        exact List.mem_append_right _ (by simp)

/-- dictInsert preserves distinctness of the keys. -/
theorem dictInsert_map_fst_nodup (d : List (Nat × String)) (k : Nat)
    (v : String) (h : (d.map Prod.fst).Nodup) :
    ((dictInsert d k v).map Prod.fst).Nodup := by
  by_cases hmem : k ∈ d.map Prod.fst
  · rw [dictInsert_map_fst_mem _ _ _ hmem]
    exact h
  · rw [dictInsert_fresh _ _ _ hmem, List.map_append]
    simp [List.nodup_append, h]
    intro x hx
    exact hmem (List.mem_map_of_mem Prod.fst hx)

/-- The keys after a dictInsert are among the old keys plus the inserted
one. -/
theorem dictInsert_map_fst_subset (d : List (Nat × String)) (k : Nat)
    (v : String) :
    (dictInsert d k v).map Prod.fst ⊆ d.map Prod.fst ++ [k] := by
  by_cases hmem : k ∈ d.map Prod.fst
  · rw [dictInsert_map_fst_mem _ _ _ hmem]
    exact List.subset_append_left _ _
  · rw [dictInsert_fresh _ _ _ hmem, List.map_append]
    simp

/-- The id of the question at position n is among the ids of the first
n+1 questions. -/
theorem id_mem_take_succ (qs : List Question) (n : Nat) (q : Question)
    (hq : qs[n]? = some q) :
    q.id ∈ (qs.take (n + 1)).map Question.id := by
  rw [List.take_succ, hq]
  simp

/-- The ids of the first n questions are among the ids of the first
n+1. -/
theorem take_map_id_subset_succ (qs : List Question) (n : Nat) :
    (qs.take n).map Question.id ⊆ (qs.take (n + 1)).map Question.id := by
  rw [List.take_succ, List.map_append]
  exact List.subset_append_left _ _

/-- Every operation — including one whose durable write fails — preserves
the weak invariant, never changes the question list and never moves the
cursor backwards. -/
theorem applyOp_winv (a : AgentState) (op : Op)
    (h : SessionInvW a.session) :
    SessionInvW (applyOp a op).session ∧
    (applyOp a op).session.questions = a.session.questions ∧
    a.session.current_question_index ≤
      (applyOp a op).session.current_question_index := by
  obtain ⟨h1, h2, h3⟩ := h
  cases op with
  | start dbOk =>
      obtain ⟨hq, hc, hr⟩ := startOp_fields a dbOk
      refine ⟨?_, hq, le_of_eq hc.symm⟩
      unfold SessionInvW
      rw [hq, hc, hr]
      exact ⟨h1, h2, h3⟩
  | advance u dbOk =>
      rcases advanceOp_cases a u dbOk with ⟨hq, hc, hr⟩ |
        ⟨q, hq, hlt, heq | ⟨hdb, heq⟩⟩
      · refine ⟨?_, hq, le_of_eq hc.symm⟩
        unfold SessionInvW
        rw [hq, hc, hr]
        exact ⟨h1, h2, h3⟩
      · rw [heq]
        have hqget : a.session.questions[a.session.current_question_index]?
            = some q := hq
        refine ⟨⟨?_, ?_, ?_⟩, rfl, ?_⟩
        · simp only [advance_to_next_question, record_response]
          omega
        · simp only [advance_to_next_question, record_response]
          exact dictInsert_map_fst_nodup _ _ _ h2
        · simp only [advance_to_next_question, record_response]
          intro x hx
          rcases List.mem_append.1
              (dictInsert_map_fst_subset _ q.id (pyStrip u) hx) with
            hx3 | hx3
          · exact take_map_id_subset_succ _ _ (h3 hx3)
          · rw [List.mem_singleton] at hx3
            subst hx3
            exact take_map_id_subset_succ _ _
              (id_mem_take_succ _ _ _ hqget)
        · simp [advance_to_next_question, record_response]
      · rw [heq]
        have hqget : a.session.questions[a.session.current_question_index]?
            = some q := hq
        refine ⟨⟨?_, ?_, ?_⟩, rfl, ?_⟩
        · simp only [record_response]
          omega
        · simp only [record_response]
          exact dictInsert_map_fst_nodup _ _ _ h2
        · simp only [record_response]
          intro x hx
          rcases List.mem_append.1
              (dictInsert_map_fst_subset _ q.id (pyStrip u) hx) with
            hx3 | hx3
          · exact h3 hx3
          · rw [List.mem_singleton] at hx3
            subst hx3
            exact id_mem_take_succ _ _ _ hqget
        · simp [record_response]
  | skip =>
      rcases skipOp_cases a with heq | ⟨heq, hlt⟩
      · rw [heq]
        exact ⟨⟨h1, h2, h3⟩, rfl, le_rfl⟩
      · rw [heq]
        refine ⟨⟨?_, h2, ?_⟩, rfl, ?_⟩
        · simp only [advance_to_next_question]
          omega
        · simp only [advance_to_next_question]
          intro x hx
          exact take_map_id_subset_succ _ _ (h3 hx)
        · simp [advance_to_next_question]

/-- Every operation whose durable write succeeds preserves the strong
invariant. -/
theorem applyOp_inv (a : AgentState) (op : Op) (h : SessionInv a.session)
    (hop : writeOk op = true) :
    SessionInv (applyOp a op).session := by
  cases op with
  | start dbOk =>
      obtain ⟨hq, hc, hr⟩ := startOp_fields a dbOk
      unfold SessionInv at h ⊢
      rw [hq, hc, hr]
      exact h
  | advance u dbOk =>
      simp only [writeOk] at hop
      subst hop
      rcases advanceOp_cases a u true with ⟨hq, hc, hr⟩ |
        ⟨q, hq, hlt, heq | ⟨hdb, heq⟩⟩
      · unfold SessionInv at h ⊢
        rw [hq, hc, hr]
        exact h
      · rw [heq]
        exact record_advance_inv a.session q (pyStrip u) hq h
      · simp at hdb
  | skip =>
      rcases skipOp_cases a with heq | ⟨heq, hlt⟩
      · rw [heq]
        exact h
      · rw [heq]
        obtain ⟨h1, h2, h3⟩ := h
        refine ⟨?_, h2, ?_⟩
        · simp only [advance_to_next_question]
          omega
        · simp only [advance_to_next_question]
          rw [List.take_succ, List.map_append]
          intro x hx
          exact List.mem_append_left _ (h3 hx)

/-- Running any sequence of operations preserves the weak invariant, the
question list, and never moves the cursor backwards. -/
theorem runOps_winv (a : AgentState) (ops : List Op)
    (h : SessionInvW a.session) :
    SessionInvW (runOps a ops).session ∧
    (runOps a ops).session.questions = a.session.questions ∧
    a.session.current_question_index ≤
      (runOps a ops).session.current_question_index := by
  induction ops generalizing a with
  | nil => exact ⟨h, rfl, le_rfl⟩
  | cons op ops ih =>
      have h1 := applyOp_winv a op h
      have h2 := ih (applyOp a op) h1.1
      exact ⟨h2.1, h2.2.1.trans h1.2.1, h1.2.2.trans h2.2.2⟩

/-- Running a sequence of operations whose durable writes all succeed
preserves the strong invariant. -/
theorem runOps_inv (a : AgentState) (ops : List Op)
    (h : SessionInv a.session)
    (hops : ∀ op ∈ ops, writeOk op = true) :
    SessionInv (runOps a ops).session := by
  induction ops generalizing a with
  | nil => exact h
  | cons op ops ih =>
      have h1 := applyOp_inv a op h (hops op (by simp))
      exact ih (applyOp a op) h1 (fun o ho => hops o (by simp [ho]))

/-- Splitting a run at any point. -/
theorem runOps_append (a : AgentState) (l1 l2 : List Op) :
    runOps a (l1 ++ l2) = runOps (runOps a l1) l2 := by
  simp [runOps, List.foldl_append]

/-- The strong invariant bounds the number of recorded answers by the
cursor. -/
theorem sessionInv_responses_le (s : SurveySession) (h : SessionInv s) :
    s.responses.length ≤ s.current_question_index := by
  obtain ⟨h1, h2, h3⟩ := h
  have hle := (h2.subperm h3).length_le
  rw [List.length_map, List.length_map, List.length_take] at hle
  omega

/-- The weak invariant bounds the number of recorded answers by the
cursor plus one. -/
theorem sessionInvW_responses_le (s : SurveySession) (h : SessionInvW s) :
    s.responses.length ≤ s.current_question_index + 1 := by
  obtain ⟨h1, h2, h3⟩ := h
  have hle := (h2.subperm h3).length_le
  rw [List.length_map, List.length_map, List.length_take] at hle
  omega

/-- C7 counterexample: an advance whose durable write fails — a real
path, since process_response has no try/except around db.save_response —
leaves a started one-question session with one recorded answer and the
cursor still 0, so len(responses) exceeds the cursor, violating the
claimed invariant over arbitrary call sequences. -/
theorem C7_counterexample :
    (runOps ⟨ConversationPhase.GREETING,
        answeredSession "احمد" [qRole] []⟩
      [Op.start true, Op.advance "جی ہاں" true,
        Op.advance "جواب" false]).session.responses.length = 1 ∧
    (runOps ⟨ConversationPhase.GREETING,
        answeredSession "احمد" [qRole] []⟩
      [Op.start true, Op.advance "جی ہاں" true,
        Op.advance "جواب" false]).session.current_question_index = 0 ∧
    ¬ ((runOps ⟨ConversationPhase.GREETING,
        answeredSession "احمد" [qRole] []⟩
      [Op.start true, Op.advance "جی ہاں" true,
        Op.advance "جواب" false]).session.responses.length ≤
      (runOps ⟨ConversationPhase.GREETING,
        answeredSession "احمد" [qRole] []⟩
      [Op.start true, Op.advance "جی ہاں" true,
        Op.advance "جواب" false]).session.current_question_index) := by
  refine ⟨rfl, rfl, by decide⟩

/-- C7 amended: starting from a fresh session (cursor 0, no responses)
with pairwise-distinct question ids, across any sequence of start /
advance / skip calls — each durable write succeeding or failing
independently — the cursor never exceeds len(questions) and never
decreases (the cursor after any prefix is at most the cursor after the
whole sequence), and len(responses) never exceeds cursor + 1; the
claimed bound len(responses) <= cursor holds whenever every durable
response write in the sequence succeeds, and a failing write breaks it
by exactly the current question's answer. -/
theorem C7_amended (a : AgentState) (ops : List Op)
    (_hnodup : (a.session.questions.map Question.id).Nodup)
    (hcur : a.session.current_question_index = 0)
    (hresp : a.session.responses = []) :
    ((runOps a ops).session.current_question_index ≤
      (runOps a ops).session.questions.length) ∧
    (∀ pre post, ops = pre ++ post →
      (runOps a pre).session.current_question_index ≤
        (runOps a ops).session.current_question_index) ∧
    ((runOps a ops).session.responses.length ≤
      (runOps a ops).session.current_question_index + 1) ∧
    ((∀ op ∈ ops, writeOk op = true) →
      (runOps a ops).session.responses.length ≤
        (runOps a ops).session.current_question_index) := by
  have hw : SessionInvW a.session := by
    refine ⟨by omega, by simp [hresp], by simp [hresp]⟩
  have hrun := runOps_winv a ops hw
  refine ⟨hrun.1.1, ?_, sessionInvW_responses_le _ hrun.1, ?_⟩
  · intro pre post hsplit
    subst hsplit
    rw [runOps_append]
    exact (runOps_winv (runOps a pre) post (runOps_winv a pre hw).1).2.2
  · intro hops
    have hs : SessionInv a.session := by
      refine ⟨by omega, by simp [hresp], by simp [hresp]⟩
    exact sessionInv_responses_le _ (runOps_inv a ops hs hops)

/-- C7 witness: the weak bound after a concrete run containing a failing
write, and the strong bound after a concrete run whose writes all
succeed. -/
theorem C7_amended_witness :
    (runOps ⟨ConversationPhase.GREETING,
        answeredSession "احمد" [qRole, qBranch] []⟩
      [Op.start true, Op.advance "جی ہاں" true, Op.advance "جواب" false,
        Op.skip]).session.responses.length ≤
      (runOps ⟨ConversationPhase.GREETING,
        answeredSession "احمد" [qRole, qBranch] []⟩
      [Op.start true, Op.advance "جی ہاں" true, Op.advance "جواب" false,
        Op.skip]).session.current_question_index + 1 ∧
    (runOps ⟨ConversationPhase.GREETING,
        answeredSession "احمد" [qRole, qBranch] []⟩
      [Op.start true, Op.advance "جی ہاں" true,
        Op.advance "جواب اول" true]).session.responses.length ≤
      (runOps ⟨ConversationPhase.GREETING,
        answeredSession "احمد" [qRole, qBranch] []⟩
      [Op.start true, Op.advance "جی ہاں" true,
        Op.advance "جواب اول" true]).session.current_question_index :=
  ⟨(C7_amended ⟨ConversationPhase.GREETING,
      answeredSession "احمد" [qRole, qBranch] []⟩
    [Op.start true, Op.advance "جی ہاں" true, Op.advance "جواب" false,
      Op.skip] (by decide) rfl rfl).2.2.1,
   (C7_amended ⟨ConversationPhase.GREETING,
      answeredSession "احمد" [qRole, qBranch] []⟩
    [Op.start true, Op.advance "جی ہاں" true, Op.advance "جواب اول" true]
    (by decide) rfl rfl).2.2.2 (by decide)⟩
